import Mathlib

/-!
Verification development for the pyreact trading backend.

The definitions below are a shallow embedding of the Signal & Risk Engine:
prices, scores and times are modelled as rationals (the Python source uses
floats), Python dicts become association lists or structures, and the
side-effecting cycle driver becomes a pure function returning the list of
position effects it would perform.  Each definition names the source
function it embeds (file and function name from the repository's backend).
-/

namespace PyReact

/-- Python's built-in `round` at the integer level: round half to even. -/
def rndHalfEven (y : ℚ) : ℤ :=
  let f := ⌊y⌋
  let r := y - f
  if r < 1/2 then f
  else if 1/2 < r then f + 1
  else if f % 2 = 0 then f else f + 1

/-- Python's `round(x, 2)` on our rational model of floats. -/
def round2 (x : ℚ) : ℚ := (rndHalfEven (x * 100) : ℚ) / 100

/-- Python's `round(x, 4)` on our rational model of floats. -/
def round4 (x : ℚ) : ℚ := (rndHalfEven (x * 10000) : ℚ) / 10000

/-- Trade direction, the `'LONG'` / `'SHORT'` strings of the source. -/
inductive Dir where
  | LONG
  | SHORT
deriving DecidableEq, Repr

/-- Row of the `positions` table (backend/position_manager.py, `open_position`).
Only the fields the engine reads are modelled. -/
structure Position where
  id : Nat
  symbol : String
  direction : Dir
  entry_price : ℚ
  stop_loss : ℚ
  target : ℚ
  position_size : ℚ
  entry_time : ℚ
  setup_type : String
  status : String
deriving DecidableEq, Repr

/-- Row of the `trades` table, restricted to the fields the Risk Gate reads
(backend/position_manager.py: `get_daily_pnl`, `count_trades_last_hour`). -/
structure Trade where
  entry_time : ℚ
  exit_time : ℚ
  pnl : ℚ
deriving DecidableEq, Repr

/-- One interval's score dict as produced by `calculate_all_scores`
(backend/indicators.py); such a dict always carries all of these keys. -/
structure IntervalScore where
  rsi_score : ℚ
  macd_score : ℚ
  adx_score : ℚ
  supertrend_score : ℚ
  support : ℚ
  resistance : ℚ
  high_volume : Bool
  atr : ℚ
  avg_atr_20 : ℚ
  swing_low : ℚ
  swing_high : ℚ
deriving DecidableEq, Repr

/-- The `weighted` dict of `calculate_weighted_indicators`. -/
structure WeightedIndicators where
  rsi : ℚ
  macd : ℚ
  adx : ℚ
  supertrend : ℚ
deriving DecidableEq, Repr

/-- Embeds `TradingEngine.check_market_filters` (backend/trading_engine.py). -/
def check_market_filters (weighted_adx current_atr avg_atr_20 : ℚ) :
    Bool × String :=
  if weighted_adx < 20 then
    (false, "ADX too low (choppy market)")
  else if current_atr > 2 * avg_atr_20 then
    (false, "Extreme volatility detected")
  else
    (true, "Market conditions OK")

/-- Embeds `TradingEngine.check_cooldown`; `last_trade_time` is the per-symbol
dict entry (`none` when the symbol is absent), `now` is `time.time()`. -/
def check_cooldown (last_trade_time : Option ℚ) (now : ℚ) : Bool :=
  match last_trade_time with
  | none => true
  | some last_time => if now - last_time < 600 then false else true

/-- Embeds `TradingEngine.detect_reversal_setup`. -/
def detect_reversal_setup (master_score weighted_rsi : ℚ) (rsi_extreme : Bool)
    (current_price support resistance weighted_adx : ℚ) :
    Bool × Option String :=
  if !rsi_extreme then (false, none)
  else
    let sr_distance_support := |current_price - support| / current_price
    let sr_distance_resistance := |current_price - resistance| / current_price
    let near_sr := sr_distance_support < 1/100 ∨ sr_distance_resistance < 1/100
    if !near_sr then (false, none)
    else if weighted_adx < 25 then (false, none)
    else if weighted_rsi > 70 ∧ master_score < 45 then (true, some "BEARISH")
    else if weighted_rsi < 30 ∧ master_score > 55 then (true, some "BULLISH")
    else (false, none)

/-- Embeds `TradingEngine.detect_breakout_setup`; `adx_history` is the rolling
ADX sample list, most recent last. -/
def detect_breakout_setup (master_score weighted_rsi current_price
    support resistance : ℚ) (adx_history : List ℚ) : Bool × Option String :=
  if weighted_rsi > 70 ∨ weighted_rsi < 30 then (false, none)
  else if adx_history.length < 4 then (false, none)
  else
    match adx_history.reverse with
    | current_adx :: p1 :: p2 :: p3 :: _ =>
      let avg_prev_3 := (p1 + p2 + p3) / 3
      if !(current_adx > avg_prev_3) then (false, none)
      else
        let near_resistance := |current_price - resistance| / current_price < 1/100
        let near_support := |current_price - support| / current_price < 1/100
        if master_score > 55 ∧ near_resistance then (true, some "BULLISH")
        else if master_score < 45 ∧ near_support then (true, some "BEARISH")
        else (false, none)
    | _ => (false, none)

/-- Embeds `TradingEngine.check_long_entry_breakout`; `supertrend_scores` is
the per-interval supertrend-score dict. -/
def check_long_entry_breakout (master_score : ℚ)
    (supertrend_scores : List (String × ℚ)) (current_price resistance : ℚ)
    (high_volume : Bool) : Bool × String :=
  if master_score ≤ 60 then (false, "Master Score not > 60")
  else if !(supertrend_scores.all (fun p => p.2 == 100)) then
    (false, "Not all timeframes in uptrend")
  else if current_price ≤ resistance * (1002/1000) then
    (false, "Price not above resistance + 0.2%")
  else if !high_volume then (false, "Volume not elevated")
  else (true, "Bullish Breakout Confirmed")

/-- Embeds `TradingEngine.check_long_entry_reversal`. -/
def check_long_entry_reversal (reversal_setup : Option String)
    (master_score weighted_macd current_price support : ℚ) : Bool × String :=
  if reversal_setup ≠ some "BULLISH" then (false, "No bullish reversal setup")
  else if master_score ≤ 55 then (false, "Master Score not > 55")
  else if weighted_macd ≤ 50 then (false, "MACD not positive")
  else if |current_price - support| / support > 1/100 then
    (false, "Price not near support")
  else (true, "Bullish Reversal Confirmed")

/-- Embeds `TradingEngine.check_short_entry_breakout`. -/
def check_short_entry_breakout (master_score : ℚ)
    (supertrend_scores : List (String × ℚ)) (current_price support : ℚ)
    (high_volume : Bool) : Bool × String :=
  if master_score ≥ 40 then (false, "Master Score not < 40")
  else if !(supertrend_scores.all (fun p => p.2 == 0)) then
    (false, "Not all timeframes in downtrend")
  else if current_price ≥ support * (998/1000) then
    (false, "Price not below support - 0.2%")
  else if !high_volume then (false, "Volume not elevated")
  else (true, "Bearish Breakout Confirmed")

/-- Embeds `TradingEngine.check_short_entry_reversal`. -/
def check_short_entry_reversal (reversal_setup : Option String)
    (master_score weighted_macd current_price resistance : ℚ) : Bool × String :=
  if reversal_setup ≠ some "BEARISH" then (false, "No bearish reversal setup")
  else if master_score ≥ 45 then (false, "Master Score not < 45")
  else if weighted_macd ≥ 50 then (false, "MACD not negative")
  else if |current_price - resistance| / resistance > 1/100 then
    (false, "Price not near resistance")
  else (true, "Bearish Reversal Confirmed")

/-- Embeds `TradingEngine.calculate_stop_loss`: three candidate levels, the
supertrend one only when positive; nearest to entry wins (`max` for LONG,
`min` for SHORT). -/
def calculate_stop_loss (direction : Dir) (entry_price swing_low swing_high
    atr supertrend_1h : ℚ) : ℚ :=
  match direction with
  | .LONG =>
    let swing_sl := swing_low * (999/1000)
    let atr_sl := entry_price - 2 * atr
    let stop_losses :=
      [swing_sl, atr_sl] ++ (if supertrend_1h > 0 then [supertrend_1h] else [])
    stop_losses.foldl max swing_sl
  | .SHORT =>
    let swing_sl := swing_high * (1001/1000)
    let atr_sl := entry_price + 2 * atr
    let stop_losses :=
      [swing_sl, atr_sl] ++ (if supertrend_1h > 0 then [supertrend_1h] else [])
    stop_losses.foldl min swing_sl

/-- Embeds `TradingEngine.calculate_target_price` (1:2 risk:reward, result
rounded to 2 decimals as in the source). -/
def calculate_target_price (direction : Dir) (entry_price stop_loss : ℚ) : ℚ :=
  let risk := |entry_price - stop_loss|
  match direction with
  | .LONG => round2 (entry_price + 2 * risk)
  | .SHORT => round2 (entry_price - 2 * risk)

/-- Embeds `TradingEngine.calculate_position_size`; callers pass
`risk_percent = 1.5`, and a zero risk-per-unit yields size 0. -/
def calculate_position_size (account_balance entry_price stop_loss
    risk_percent : ℚ) : ℚ :=
  let risk_amount := account_balance * (risk_percent / 100)
  let risk_per_unit := |entry_price - stop_loss|
  if risk_per_unit = 0 then 0
  else round4 (risk_amount / risk_per_unit)

/-- Embeds `TradingEngine.calculate_pnl`. -/
def calculate_pnl (position : Position) (current_price : ℚ) : ℚ :=
  match position.direction with
  | .LONG => round2 ((current_price - position.entry_price) * position.position_size)
  | .SHORT => round2 ((position.entry_price - current_price) * position.position_size)

/-- Embeds `TradingEngine.check_exit_conditions`; `now` stands for the
`time.time()` call in the time-based exit. -/
def check_exit_conditions (position : Position) (current_price master_score
    weighted_supertrend entry_time now : ℚ) : Bool × Option String :=
  if position.direction = .LONG ∧ current_price ≥ position.target then
    (true, some "Target Hit")
  else if position.direction = .SHORT ∧ current_price ≤ position.target then
    (true, some "Target Hit")
  else if position.direction = .LONG ∧ current_price ≤ position.stop_loss then
    (true, some "Stop Loss Hit")
  else if position.direction = .SHORT ∧ current_price ≥ position.stop_loss then
    (true, some "Stop Loss Hit")
  else if position.direction = .LONG ∧ master_score < 45 then
    (true, some "Master Score Reversal")
  else if position.direction = .SHORT ∧ master_score > 55 then
    (true, some "Master Score Reversal")
  else if position.direction = .LONG ∧ weighted_supertrend < 40 then
    (true, some "Supertrend Flip")
  else if position.direction = .SHORT ∧ weighted_supertrend > 60 then
    (true, some "Supertrend Flip")
  else if now - entry_time > 14400 ∧ calculate_pnl position current_price ≤ 0 then
    (true, some "Time Exit (No Profit)")
  else
    (false, none)

/-- Embeds `TradingEngine.update_trailing_stop`.  Note that `risk` is
recomputed from the position's current stop, and the breakeven branch is
tried before the 50%-of-profit trail. -/
def update_trailing_stop (position : Position) (current_price : ℚ) :
    Option ℚ :=
  let entry_price := position.entry_price
  let stop_loss := position.stop_loss
  let risk := |entry_price - stop_loss|
  match position.direction with
  | .LONG =>
    let current_profit := current_price - entry_price
    if current_profit ≥ risk ∧ stop_loss < entry_price then
      some entry_price
    else if current_profit ≥ (3/2) * risk then
      let new_sl := entry_price + current_profit * (1/2)
      if new_sl > stop_loss then some new_sl else none
    else none
  | .SHORT =>
    let current_profit := entry_price - current_price
    if current_profit ≥ risk ∧ stop_loss > entry_price then
      some entry_price
    else if current_profit ≥ (3/2) * risk then
      let new_sl := entry_price - current_profit * (1/2)
      if new_sl < stop_loss then some new_sl else none
    else none

/-- Embeds the classification chain of `calculate_master_score`
(backend/indicators.py and the identical copy in backend/data_processor.py). -/
def classification (master_score : ℚ) : String :=
  if master_score > 65 then "STRONG_BULLISH"
  else if master_score ≥ 55 then "BULLISH"
  else if master_score ≥ 45 then "NEUTRAL"
  else if master_score ≥ 35 then "BEARISH"
  else "STRONG_BEARISH"

/-- Embeds `calculate_master_score` (backend/indicators.py): fixed indicator
weights, score rounded to 2 decimals, classification on the unrounded score. -/
def calculate_master_score (weighted_scores : WeightedIndicators) :
    ℚ × String :=
  let master_score :=
    weighted_scores.rsi * (1/4) + weighted_scores.macd * (3/10) +
    weighted_scores.adx * (1/5) + weighted_scores.supertrend * (1/4)
  (round2 master_score, classification master_score)

/-- Embeds `calculate_weighted_indicators` (backend/indicators.py and the
identical copy in backend/data_processor.py).  `interval_scores` is the
`{interval: scores}` dict in iteration order; `timeframe_weights` models
`timeframe_weights.get(interval, 0)` as a total weight function.
`cwi_step` is one iteration of its accumulation loop. -/
def cwi_step (timeframe_weights : String → ℚ)
    (acc : WeightedIndicators × ℚ) (p : String × IntervalScore) :
    WeightedIndicators × ℚ :=
  let weight := timeframe_weights p.1
  (⟨acc.1.rsi + p.2.rsi_score * weight,
    acc.1.macd + p.2.macd_score * weight,
    acc.1.adx + p.2.adx_score * weight,
    acc.1.supertrend + p.2.supertrend_score * weight⟩,
   acc.2 + weight)

def calculate_weighted_indicators
    (interval_scores : List (String × IntervalScore))
    (timeframe_weights : String → ℚ) : WeightedIndicators :=
  let folded := interval_scores.foldl (cwi_step timeframe_weights) (⟨0, 0, 0, 0⟩, 0)
  let weighted := folded.1
  let total_weight := folded.2
  if total_weight > 0 then
    ⟨round2 (weighted.rsi / total_weight),
     round2 (weighted.macd / total_weight),
     round2 (weighted.adx / total_weight),
     round2 (weighted.supertrend / total_weight)⟩
  else weighted

/-- Total weight a weight map assigns to the intervals actually present, the
`total_weight` accumulator of `calculate_weighted_indicators`. -/
def total_applied_weight (interval_scores : List (String × IntervalScore))
    (timeframe_weights : String → ℚ) : ℚ :=
  (interval_scores.map (fun p => timeframe_weights p.1)).sum

/-- Mean of the last 20 entries, `pd.Series(volume).tail(20).mean()` in
`calculate_volume_analysis` (backend/indicators.py). -/
def tail20_mean (volume : List ℚ) : ℚ :=
  (volume.drop (volume.length - 20)).sum / 20

/-- Embeds `calculate_volume_analysis` (backend/indicators.py): fewer than 20
samples or a non-positive average substitute zeros instead of dividing. -/
def calculate_volume_analysis (volume : List ℚ) : ℚ × ℚ × Bool :=
  if volume.length < 20 then (0, 0, false)
  else
    let avg_volume := tail20_mean volume
    let current_volume := volume.getLastD 0
    let volume_ratio := if avg_volume > 0 then current_volume / avg_volume else 0
    let is_high_volume := volume_ratio > 3/2
    (round2 avg_volume, round2 volume_ratio, is_high_volume)

/-- Embeds the P&L arithmetic of `PositionManager.close_position`
(backend/position_manager.py, lines 128-133): `pnl_percent` divides by
`entry_price * position_size` with no guard, so a zero denominator raises
`ZeroDivisionError`, modelled as `Except.error`.  Returns `(pnl, pnl_percent)`
on success. -/
def close_position_pnl (direction : Dir) (entry_price exit_price
    position_size : ℚ) : Except String (ℚ × ℚ) :=
  let pnl :=
    match direction with
    | .LONG => (exit_price - entry_price) * position_size
    | .SHORT => (entry_price - exit_price) * position_size
  if entry_price * position_size = 0 then
    .error "ZeroDivisionError"
  else
    .ok (pnl, pnl / (entry_price * position_size) * 100)

/-- Embeds `PositionManager.get_open_positions(symbol)`: rows of the positions
table for the symbol with status OPEN. -/
def get_open_positions (positions : List Position) (symbol : String) :
    List Position :=
  positions.filter (fun p => p.symbol == symbol && p.status == "OPEN")

/-- Embeds `PositionManager.count_open_positions` (global, all symbols). -/
def count_open_positions (positions : List Position) : Nat :=
  (positions.filter (fun p => p.status == "OPEN")).length

/-- Embeds `PositionManager.count_trades_last_hour`: rows of the closed-trades
table whose `entry_time` is within the trailing 3600 seconds. -/
def count_trades_last_hour (trades : List Trade) (now : ℚ) : Nat :=
  (trades.filter (fun t => t.entry_time ≥ now - 3600)).length

/-- Embeds `PositionManager.get_daily_pnl`: summed pnl of trades closed since
the start of the current day. -/
def get_daily_pnl (trades : List Trade) (today_start : ℚ) : ℚ :=
  ((trades.filter (fun t => t.exit_time ≥ today_start)).map Trade.pnl).sum

/-- Embeds `PositionManager.check_daily_loss_limit`. -/
def check_daily_loss_limit (trades : List Trade) (today_start
    account_balance limit_percent : ℚ) : Bool × ℚ :=
  let daily_pnl := get_daily_pnl trades today_start
  let loss_limit := account_balance * (limit_percent / 100)
  if daily_pnl < -loss_limit then (true, daily_pnl) else (false, daily_pnl)

/-- Engine-side state read by one `process_trading_signals` call: the position
and trade tables, the per-symbol cooldown stamp and ADX history, the account
balance, and the clock values the Python code reads from `time`/`datetime`. -/
structure TradingState where
  positions : List Position
  trades : List Trade
  last_trade_time : Option ℚ
  adx_history : List ℚ
  account_balance : ℚ
  now : ℚ
  today_start : ℚ
deriving Repr

/-- Embeds `SignalProcessor.check_risk_limits` (backend/signal_processor.py):
daily loss limit at 4%, at most 2 open positions after which entry is blocked
at 3, and the 2-per-hour trade-rate cap, checked in that order. -/
def check_risk_limits (st : TradingState) : Bool :=
  let limit := check_daily_loss_limit st.trades st.today_start
    st.account_balance 4
  if limit.1 then false
  else if count_open_positions st.positions ≥ 3 then false
  else if count_trades_last_hour st.trades st.now ≥ 2 then false
  else true

/-- State-changing steps a cycle would perform; stands for the
`position_manager` calls of `SignalProcessor` (notifications and prints are
pure observers and are not modelled). -/
inductive Effect where
  | closePosition (id : Nat) (exit_price : ℚ) (reason : String)
  | updateStopLoss (id : Nat) (new_sl : ℚ)
  | openPosition (direction : Dir) (setup_type : String)
      (entry_price stop_loss target position_size : ℚ)
deriving DecidableEq, Repr

/-- Python's truthiness test `if new_sl:` on a float-or-None value. -/
def truthyQ (x : Option ℚ) : Bool :=
  match x with
  | none => false
  | some v => v != 0

/-- Embeds `SignalProcessor.manage_existing_positions`: per open position,
close on a met exit condition, otherwise forward a (truthy) trailing-stop
update. -/
def manage_existing_positions (positions : List Position) (symbol : String)
    (current_price master_score weighted_supertrend now : ℚ) : List Effect :=
  (get_open_positions positions symbol).flatMap fun position =>
    let exit := check_exit_conditions position current_price master_score
      weighted_supertrend position.entry_time now
    if exit.1 then
      [Effect.closePosition position.id current_price
        ((exit.2).getD "")]
    else
      let new_sl := update_trailing_stop position current_price
      if truthyQ new_sl then
        [Effect.updateStopLoss position.id (new_sl.getD 0)]
      else []

/-- Dict lookup `interval_scores.get(key)` on the interval-score map. -/
def lookup_interval (interval_scores : List (String × IntervalScore))
    (key : String) : Option IntervalScore :=
  (interval_scores.find? (fun p => p.1 == key)).map Prod.snd

/-- The `atr` read from the 1h interval dict in `process_trading_signals`
(`interval_1h.get('atr', 0)`, with `interval_1h` defaulting to `{}`). -/
def atr_1h (interval_scores : List (String × IntervalScore)) : ℚ :=
  ((lookup_interval interval_scores "1h").map IntervalScore.atr).getD 0

/-- The `avg_atr_20` read from the 1h interval dict in
`process_trading_signals`. -/
def avg_atr_20_1h (interval_scores : List (String × IntervalScore)) : ℚ :=
  ((lookup_interval interval_scores "1h").map IntervalScore.avg_atr_20).getD 0

/-- Embeds `SignalProcessor.execute_entry`: stop, target and size for the new
position (balance and the 1h dict threaded from the caller). -/
def execute_entry (direction : Dir) (setup_type : String)
    (entry_price swing_low swing_high atr : ℚ)
    (interval_1h : Option IntervalScore) (account_balance : ℚ) : Effect :=
  let supertrend_1h := ((interval_1h.map IntervalScore.supertrend_score).getD 50)
  let stop_loss := calculate_stop_loss direction entry_price swing_low
    swing_high atr supertrend_1h
  let target := calculate_target_price direction entry_price stop_loss
  let position_size := calculate_position_size account_balance entry_price
    stop_loss (3/2)
  Effect.openPosition direction setup_type entry_price stop_loss target
    position_size

/-- Embeds `SignalProcessor.check_entry_signals`: the four entry families in
fixed order, first passing family wins the cycle. -/
def check_entry_signals (master_score weighted_macd : ℚ)
    (supertrend_scores : List (String × ℚ))
    (current_price support resistance : ℚ) (high_volume : Bool)
    (is_reversal : Bool) (reversal_direction : Option String)
    (swing_low swing_high atr : ℚ) (interval_1h : Option IntervalScore)
    (account_balance : ℚ) : List Effect :=
  let lb := check_long_entry_breakout master_score supertrend_scores
    current_price resistance high_volume
  if lb.1 then
    [execute_entry .LONG "Breakout" current_price swing_low swing_high atr
      interval_1h account_balance]
  else
    let lr := check_long_entry_reversal
      (if is_reversal then reversal_direction else none) master_score
      weighted_macd current_price support
    if lr.1 then
      [execute_entry .LONG "Reversal" current_price swing_low swing_high atr
        interval_1h account_balance]
    else
      let sb := check_short_entry_breakout master_score supertrend_scores
        current_price support high_volume
      if sb.1 then
        [execute_entry .SHORT "Breakout" current_price swing_low swing_high atr
          interval_1h account_balance]
      else
        let sr := check_short_entry_reversal
          (if is_reversal then reversal_direction else none) master_score
          weighted_macd current_price resistance
        if sr.1 then
          [execute_entry .SHORT "Reversal" current_price swing_low swing_high
            atr interval_1h account_balance]
        else []

/-- Embeds `SignalProcessor.detect_and_process_signals` (setup alerts are
notifications only; the entry pipeline is what reaches the position store). -/
def detect_and_process_signals (st : TradingState) (master_score weighted_rsi
    weighted_macd weighted_adx : ℚ) (current_price support resistance : ℚ)
    (rsi_extreme high_volume : Bool)
    (interval_scores : List (String × IntervalScore))
    (swing_low swing_high atr : ℚ) (interval_1h : Option IntervalScore) :
    List Effect :=
  let reversal := detect_reversal_setup master_score weighted_rsi rsi_extreme
    current_price support resistance weighted_adx
  let supertrend_scores :=
    interval_scores.map (fun p => (p.1, p.2.supertrend_score))
  check_entry_signals master_score weighted_macd supertrend_scores
    current_price support resistance high_volume reversal.1 reversal.2
    swing_low swing_high atr interval_1h st.account_balance

/-- Embeds `SignalProcessor.process_trading_signals`
(backend/signal_processor.py, lines 15-67; backend/server_app.py has the same
control flow): risk gate, then market filters, then existing-position
management, then — only with no open position for the symbol and the cooldown
elapsed — entry evaluation.  Returns the effects performed. -/
def process_trading_signals (st : TradingState) (symbol : String)
    (master_score : ℚ) (weighted_indicators : WeightedIndicators)
    (interval_scores : List (String × IntervalScore)) (current_price : ℚ) :
    List Effect :=
  if !check_risk_limits st then []
  else
    let weighted_rsi := weighted_indicators.rsi
    let weighted_macd := weighted_indicators.macd
    let weighted_adx := weighted_indicators.adx
    let weighted_supertrend := weighted_indicators.supertrend
    let interval_1h := lookup_interval interval_scores "1h"
    let support := ((interval_1h.map IntervalScore.support).getD
      (current_price * (98/100)))
    let resistance := ((interval_1h.map IntervalScore.resistance).getD
      (current_price * (102/100)))
    let rsi_extreme := weighted_rsi > 70 ∨ weighted_rsi < 30
    let high_volume := ((interval_1h.map IntervalScore.high_volume).getD false)
    let atr := atr_1h interval_scores
    let avg_atr_20 := avg_atr_20_1h interval_scores
    let swing_low := ((interval_1h.map IntervalScore.swing_low).getD
      (current_price * (95/100)))
    let swing_high := ((interval_1h.map IntervalScore.swing_high).getD
      (current_price * (105/100)))
    let filters := check_market_filters weighted_adx atr avg_atr_20
    if !filters.1 then []
    else
      let manage := manage_existing_positions st.positions symbol
        current_price master_score weighted_supertrend st.now
      if !(get_open_positions st.positions symbol).isEmpty then manage
      else if !check_cooldown st.last_trade_time st.now then manage
      else
        manage ++ detect_and_process_signals st master_score weighted_rsi
          weighted_macd weighted_adx current_price support resistance
          (decide rsi_extreme) high_volume interval_scores swing_low
          swing_high atr interval_1h

/-- The five exit rules exactly as the spec lists them, in the spec's
precedence order, each paired with its reason; written from the spec's words
to be compared with `check_exit_conditions`. -/
def exit_rules_spec (position : Position) (current_price master_score
    weighted_supertrend entry_time now : ℚ) : List (Bool × String) :=
  [(decide ((position.direction = .LONG ∧ current_price ≥ position.target) ∨
      (position.direction = .SHORT ∧ current_price ≤ position.target)),
    "Target Hit"),
   (decide ((position.direction = .LONG ∧ current_price ≤ position.stop_loss) ∨
      (position.direction = .SHORT ∧ current_price ≥ position.stop_loss)),
    "Stop Loss Hit"),
   (decide ((position.direction = .LONG ∧ master_score < 45) ∨
      (position.direction = .SHORT ∧ master_score > 55)),
    "Master Score Reversal"),
   (decide ((position.direction = .LONG ∧ weighted_supertrend < 40) ∨
      (position.direction = .SHORT ∧ weighted_supertrend > 60)),
    "Supertrend Flip"),
   (decide (now - entry_time > 14400 ∧
      calculate_pnl position current_price ≤ 0),
    "Time Exit (No Profit)")]

/-- First-match semantics over the spec's exit rule list: the first rule whose
condition holds supplies the exit reason. -/
def check_exit_spec (position : Position) (current_price master_score
    weighted_supertrend entry_time now : ℚ) : Bool × Option String :=
  match (exit_rules_spec position current_price master_score
      weighted_supertrend entry_time now).find? Prod.fst with
  | some rule => (true, some rule.2)
  | none => (false, none)

/-!  Concrete scenario inputs used by counterexamples and witnesses. -/

/-- An open LONG position: entry 100, stop 95, target 110, size 1. -/
def posA : Position :=
  ⟨1, "BTC", .LONG, 100, 95, 110, 1, 0, "Breakout", "OPEN"⟩

/-- A LONG position whose stop already sits at breakeven. -/
def posB : Position :=
  ⟨1, "BTC", .LONG, 100, 100, 110, 1, 0, "Breakout", "OPEN"⟩

/-- State with two losing trades entered within the last hour (trade-rate cap
hit) and `posA` still open with the target reached. -/
def stA : TradingState :=
  ⟨[posA], [⟨500, 600, -1⟩, ⟨600, 700, -1⟩], none, [], 10000, 1000, 0⟩

/-- Neutral weighted indicators with tradable ADX. -/
def wA : WeightedIndicators := ⟨50, 50, 30, 50⟩

/-- A 1h interval score dict for the `stA` scenario. -/
def isA : IntervalScore := ⟨50, 50, 50, 50, 98, 102, false, 1, 1, 95, 105⟩

/-- Open ETH position opened 600 seconds before `stC9.now`. -/
def posC9a : Position :=
  ⟨1, "ETH", .LONG, 100, 95, 110, 1, 9400, "Breakout", "OPEN"⟩

/-- Second open ETH position opened 600 seconds before `stC9.now`. -/
def posC9b : Position :=
  ⟨2, "ETH", .LONG, 100, 95, 110, 1, 9400, "Breakout", "OPEN"⟩

/-- State with two open positions entered inside the trailing hour and an
empty closed-trades table. -/
def stC9 : TradingState := ⟨[posC9a, posC9b], [], none, [], 10000, 10000, 0⟩

/-- Bullish weighted indicators (all-uptrend supertrend). -/
def wC9 : WeightedIndicators := ⟨50, 50, 30, 100⟩

/-- A 1h interval dict that qualifies a LONG breakout at price 100.5. -/
def isC9 : IntervalScore := ⟨50, 50, 50, 100, 99, 100, true, 1, 1, 99, 101⟩

/-- Interval scores whose rsi entries are 10 and 20, for the mixed-sign
weight counterexample. -/
def isW1 : IntervalScore := ⟨10, 0, 0, 0, 0, 0, false, 0, 0, 0, 0⟩

/-- Second interval score for the mixed-sign weight counterexample. -/
def isW2 : IntervalScore := ⟨20, 0, 0, 0, 0, 0, false, 0, 0, 0, 0⟩

/-- Two intervals for the mixed-sign weight counterexample. -/
def scoresW : List (String × IntervalScore) := [("1h", isW1), ("4h", isW2)]

/-- A weight map with weights 1 and -1: total applied weight 0. -/
def weightsW : String → ℚ := fun interval => if interval == "1h" then 1 else -1

/-!  Helper lemmas. -/

/-- Folding `cwi_step` over intervals whose weights are all zero leaves the
accumulator unchanged. -/
theorem cwi_foldl_zero_weights (timeframe_weights : String → ℚ)
    (l : List (String × IntervalScore)) (acc : WeightedIndicators × ℚ)
    (h : ∀ p ∈ l, timeframe_weights p.1 = 0) :
    l.foldl (cwi_step timeframe_weights) acc = acc := by
  induction l generalizing acc with
  | nil => rfl
  | cons p l ih =>
    have hp : timeframe_weights p.1 = 0 := h p (by simp)
    have hstep : cwi_step timeframe_weights acc p = acc := by
      obtain ⟨⟨r, m, a, s⟩, t⟩ := acc
      simp [cwi_step, hp]
    rw [List.foldl_cons, hstep]
    exact ih acc (fun q hq => h q (by simp [hq]))

/-- A list of nonnegative rationals with zero sum is all zeros. -/
theorem sum_zero_all_zero (l : List ℚ) (hnn : ∀ x ∈ l, 0 ≤ x)
    (hsum : l.sum = 0) : ∀ x ∈ l, x = 0 := by
  induction l with
  | nil => simp
  | cons a l ih =>
    have ha : 0 ≤ a := hnn a (by simp)
    have hl : 0 ≤ l.sum := List.sum_nonneg (fun x hx => hnn x (by simp [hx]))
    rw [List.sum_cons] at hsum
    have ha0 : a = 0 := by linarith
    have hl0 : l.sum = 0 := by linarith
    intro x hx
    rcases List.mem_cons.mp hx with hx | hx
    · exact hx ▸ ha0
    · exact ih (fun y hy => hnn y (by simp [hy])) hl0 x hx

/-- `rndHalfEven` is the identity on integers. -/
theorem rndHalfEven_intCast (n : ℤ) : rndHalfEven (n : ℚ) = n := by
  unfold rndHalfEven
  simp [Int.floor_intCast]

/-- `round2` is the identity on multiples of a cent. -/
theorem round2_cent (n : ℤ) : round2 ((n : ℚ) / 100) = (n : ℚ) / 100 := by
  unfold round2
  have h : (n : ℚ) / 100 * 100 = (n : ℚ) := by
    field_simp
  rw [h, rndHalfEven_intCast]

/-- Difference of two cent-aligned prices in absolute value. -/
theorem cent_sub_abs (k m : ℤ) :
    |(k : ℚ) / 100 - (m : ℚ) / 100| = ((|k - m| : ℤ) : ℚ) / 100 := by
  have h : (k : ℚ) / 100 - (m : ℚ) / 100 = ((k - m : ℤ) : ℚ) / 100 := by
    push_cast
    ring
  rw [h, abs_div, Int.cast_abs]
  norm_num

/-!  Claim theorems. -/

/-- C1 (counterexample): in state `stA` the trade-rate cap fails the Risk
Gate, `posA` has its target reached and position management would close it,
yet the cycle performs nothing at all — existing-position management does NOT
run when a Risk Gate check fails, contrary to the claim. -/
theorem risk_gate_skips_position_management_cex :
    check_risk_limits stA = false ∧
    manage_existing_positions stA.positions "BTC" 110 50 50 stA.now =
      [Effect.closePosition 1 110 "Target Hit"] ∧
    process_trading_signals stA "BTC" 50 wA [("1h", isA)] 110 = [] := by
  refine ⟨?_, ?_, ?_⟩
  · norm_num [check_risk_limits, check_daily_loss_limit, get_daily_pnl,
      count_open_positions, count_trades_last_hour, stA, posA, List.filter]
  · norm_num [manage_existing_positions, get_open_positions, stA, posA,
      List.filter, check_exit_conditions, List.flatMap]
  · norm_num [process_trading_signals, check_risk_limits,
      check_daily_loss_limit, get_daily_pnl, count_open_positions,
      count_trades_last_hour, stA, posA, List.filter]

/-- C1 (amended): a failing Risk Gate check short-circuits the whole cycle
for the symbol — including existing-position management — so the cycle
performs no effects at all. -/
theorem risk_gate_short_circuits_whole_cycle (st : TradingState)
    (symbol : String) (master_score : ℚ)
    (weighted_indicators : WeightedIndicators)
    (interval_scores : List (String × IntervalScore)) (current_price : ℚ)
    (h : check_risk_limits st = false) :
    process_trading_signals st symbol master_score weighted_indicators
      interval_scores current_price = [] := by
  simp [process_trading_signals, h]

/-- Witness for the amended C1 at the concrete state `stA`. -/
theorem risk_gate_short_circuits_whole_cycle_witness :
    process_trading_signals stA "BTC" 50 wA [("1h", isA)] 110 = [] :=
  risk_gate_short_circuits_whole_cycle stA "BTC" 50 wA [("1h", isA)] 110
    (by norm_num [check_risk_limits, check_daily_loss_limit, get_daily_pnl,
      count_open_positions, count_trades_last_hour, stA, posA, List.filter])

/-- C9 (counterexample): two positions were opened inside the trailing 60
minutes (both still open), so by the claim the Risk Gate must reject every
new entry; instead `check_risk_limits` passes — the hourly count reads only
the closed-trades table, here empty — and the cycle opens a new position. -/
theorem trade_rate_cap_ignores_open_positions_cex :
    (stC9.positions.filter
      (fun p => p.entry_time ≥ stC9.now - 3600)).length = 2 ∧
    count_trades_last_hour stC9.trades stC9.now = 0 ∧
    check_risk_limits stC9 = true ∧
    process_trading_signals stC9 "BTC" 70 wC9 [("1h", isC9)] (201/2) =
      [Effect.openPosition .LONG "Breakout" (201/2) 100 (203/2) 300] := by
  have hrisk : check_risk_limits stC9 = true := by
    norm_num [check_risk_limits, check_daily_loss_limit, get_daily_pnl,
      count_open_positions, count_trades_last_hour, stC9, posC9a, posC9b,
      List.filter_cons]
  have hopen : get_open_positions stC9.positions "BTC" = [] := by
    norm_num [get_open_positions, stC9, posC9a, posC9b, List.filter_cons,
      (show ¬("ETH" = "BTC") from by decide)]
  have hlookup : lookup_interval [("1h", isC9)] "1h" = some isC9 := by
    simp [lookup_interval, List.find?]
  have hstop : calculate_stop_loss .LONG (201/2) 99 101 1 100 = 100 := by
    norm_num [calculate_stop_loss, List.foldl, max_def]
  have htgt : calculate_target_price .LONG (201/2) 100 = 203/2 := by
    simp only [calculate_target_price]
    rw [show |(201:ℚ)/2 - 100| = 1/2 by rw [abs_of_nonneg] <;> norm_num]
    norm_num [round2, rndHalfEven, Int.fract]
  have hsize : calculate_position_size 10000 (201/2) 100 (3/2) = 300 := by
    simp only [calculate_position_size]
    rw [show |(201:ℚ)/2 - 100| = 1/2 by rw [abs_of_nonneg] <;> norm_num]
    norm_num [round4, rndHalfEven, Int.fract]
  refine ⟨?_, ?_, hrisk, ?_⟩
  · norm_num [stC9, posC9a, posC9b, List.filter_cons]
  · norm_num [count_trades_last_hour, stC9, List.filter]
  · norm_num [process_trading_signals, check_risk_limits,
      check_daily_loss_limit, get_daily_pnl, count_open_positions,
      count_trades_last_hour, stC9, posC9a, posC9b, List.filter_cons,
      (show ¬("ETH" = "BTC") from by decide), get_open_positions,
      lookup_interval, List.find?, isC9, wC9, atr_1h, avg_atr_20_1h,
      check_market_filters, check_cooldown, manage_existing_positions,
      List.flatMap, detect_and_process_signals, detect_reversal_setup,
      check_entry_signals, check_long_entry_breakout, execute_entry,
      hstop, htgt, hsize, List.all]

/-- C9 (amended): the trailing-hour count covers only closed trades (rows of
the trades table) whose entry time lies in the window; whenever that count is
2 or more the Risk Gate rejects. -/
theorem trade_rate_cap_counts_closed_trades (st : TradingState)
    (h : count_trades_last_hour st.trades st.now ≥ 2) :
    check_risk_limits st = false := by
  unfold check_risk_limits
  split_ifs <;> simp_all

/-- Witness for the amended C9 at the concrete state `stA`, whose two closed
trades were entered within the trailing hour. -/
theorem trade_rate_cap_counts_closed_trades_witness :
    check_risk_limits stA = false :=
  trade_rate_cap_counts_closed_trades stA
    (by norm_num [count_trades_last_hour, stA, List.filter])

/-- C10 (confirmed): when the weighted ADX is below 20 or the current ATR
exceeds twice its 20-period average, the cycle stops before any position
management or entry evaluation — it performs no effects at all. -/
theorem market_filter_gates_all_processing (st : TradingState)
    (symbol : String) (master_score : ℚ)
    (weighted_indicators : WeightedIndicators)
    (interval_scores : List (String × IntervalScore)) (current_price : ℚ)
    (h : weighted_indicators.adx < 20 ∨
      atr_1h interval_scores > 2 * avg_atr_20_1h interval_scores) :
    process_trading_signals st symbol master_score weighted_indicators
      interval_scores current_price = [] := by
  cases hr : check_risk_limits st with
  | false => simp [process_trading_signals, hr]
  | true =>
    have hf : (check_market_filters weighted_indicators.adx
        (atr_1h interval_scores) (avg_atr_20_1h interval_scores)).1 = false := by
      unfold check_market_filters
      rcases h with h | h
      · rw [if_pos h]
      · by_cases hadx : weighted_indicators.adx < 20
        · rw [if_pos hadx]
        · rw [if_neg hadx, if_pos h]
    simp [process_trading_signals, hr, hf]

/-- Witness for C10: ADX 10 blocks the cycle in a state that would otherwise
open a position. -/
theorem market_filter_gates_all_processing_witness :
    process_trading_signals stC9 "BTC" 70 ⟨50, 50, 10, 100⟩ [("1h", isC9)]
      (201/2) = [] :=
  market_filter_gates_all_processing stC9 "BTC" 70 ⟨50, 50, 10, 100⟩
    [("1h", isC9)] (201/2) (Or.inl (by decide))

/-- C2 (counterexample): a swing low above the entry price makes the LONG
stop-loss land above entry — with entry 100, swing low 200, ATR 0 and no
positive supertrend the returned stop is 199.8. -/
theorem stop_loss_above_entry_cex :
    calculate_stop_loss .LONG 100 200 0 0 0 = 999/5 ∧
    ¬(calculate_stop_loss .LONG 100 200 0 0 0 ≤ 100) := by
  constructor
  · norm_num [calculate_stop_loss, List.foldl, max_def]
  · norm_num [calculate_stop_loss, List.foldl, max_def]

/-- C2 (amended): for LONG the returned stop is ≤ entry provided every
candidate respects entry — the swing candidate `swing_low*0.999` does not
exceed entry, ATR is nonnegative, and a positive supertrend value does not
exceed entry. -/
theorem stop_loss_le_entry_of_bounded_inputs (entry_price swing_low swing_high
    atr supertrend_1h : ℚ)
    (hswing : swing_low * (999/1000) ≤ entry_price)
    (hatr : 0 ≤ atr)
    (hst : supertrend_1h > 0 → supertrend_1h ≤ entry_price) :
    calculate_stop_loss .LONG entry_price swing_low swing_high atr
      supertrend_1h ≤ entry_price := by
  unfold calculate_stop_loss
  by_cases h : supertrend_1h > 0
  · simp only [h, if_pos, List.cons_append, List.nil_append, List.foldl]
    have := hst h
    simp only [max_le_iff]
    refine ⟨⟨⟨hswing, hswing⟩, by linarith⟩, this⟩
  · simp only [h, if_neg, List.append_nil, List.foldl]
    simp only [max_le_iff]
    exact ⟨⟨hswing, hswing⟩, by linarith⟩

/-- Witness for the amended C2: entry 100, swing low 95, ATR 1, supertrend
candidate absent. -/
theorem stop_loss_le_entry_of_bounded_inputs_witness :
    calculate_stop_loss .LONG 100 95 105 1 0 ≤ 100 :=
  stop_loss_le_entry_of_bounded_inputs 100 95 105 1 0 (by norm_num)
    (by norm_num) (by norm_num)

/-- C3 (counterexample): for the claim's own numbers — LONG, entry 100,
stop 95, price 107.5 — the update returns breakeven 100, not 103.75: the
breakeven branch (profit ≥ risk and stop below entry) fires first. -/
theorem trailing_stop_breakeven_preempts_cex :
    update_trailing_stop posA (215/2) = some 100 ∧
    update_trailing_stop posA (215/2) ≠ some (415/4) := by
  have h : update_trailing_stop posA (215/2) = some 100 := by
    simp only [update_trailing_stop, posA]
    rw [show |(100:ℚ) - 95| = 5 by rw [abs_of_nonneg] <;> norm_num]
    norm_num
  exact ⟨h, by rw [h]; simp; norm_num⟩

/-- C3 (amended): the trail measures risk against the current stop and the
breakeven branch takes precedence; once a LONG position's stop sits at or
above entry, profit of at least 1.5 times `stop - entry` moves the stop to
`entry + 0.5*profit` whenever that is above the current stop. -/
theorem trailing_stop_half_profit_trail (position : Position)
    (current_price : ℚ)
    (hdir : position.direction = .LONG)
    (hsl : position.entry_price ≤ position.stop_loss)
    (hprofit : current_price - position.entry_price ≥
      (3/2) * (position.stop_loss - position.entry_price))
    (htight : position.entry_price +
      (current_price - position.entry_price) * (1/2) > position.stop_loss) :
    update_trailing_stop position current_price =
      some (position.entry_price +
        (current_price - position.entry_price) * (1/2)) := by
  have hrisk : |position.entry_price - position.stop_loss| =
      position.stop_loss - position.entry_price := by
    rw [abs_of_nonpos (by linarith)]
    ring
  simp only [update_trailing_stop, hdir, hrisk]
  rw [if_neg (by rintro ⟨-, hlt⟩; linarith), if_pos hprofit, if_pos htight]

/-- Witness for the amended C3: from breakeven (stop 100) a price of 107.5
trails the stop to 103.75. -/
theorem trailing_stop_half_profit_trail_witness :
    update_trailing_stop posB (215/2) = some (415/4) := by
  have h := trailing_stop_half_profit_trail posB (215/2) rfl
    (by norm_num [posB]) (by norm_num [posB]) (by norm_num [posB])
  rw [h]
  norm_num [posB]

/-- C5 (counterexample): the claim also covers the close-time P&L-percent
computation, but that division has no guard: with position size 0 the close
raises ZeroDivisionError instead of substituting a neutral value. -/
theorem close_position_pnl_raises_cex :
    close_position_pnl .LONG 100 110 0 = .error "ZeroDivisionError" := by
  norm_num [close_position_pnl]

/-- C5 (amended): zero average volume and zero risk-per-unit are recovered
locally by substituting neutral/zero values, but the P&L-percent computation
on close is unguarded and raises ZeroDivisionError whenever
`entry_price * position_size` is zero. -/
theorem degenerate_inputs_guarded :
    (∀ volume : List ℚ, 20 ≤ volume.length → tail20_mean volume = 0 →
      calculate_volume_analysis volume = (0, 0, false)) ∧
    (∀ account_balance entry_price stop_loss risk_percent : ℚ,
      entry_price = stop_loss →
      calculate_position_size account_balance entry_price stop_loss
        risk_percent = 0) ∧
    (∀ (direction : Dir) (entry_price exit_price position_size : ℚ),
      entry_price * position_size = 0 →
      close_position_pnl direction entry_price exit_price position_size =
        .error "ZeroDivisionError") := by
  refine ⟨?_, ?_, ?_⟩
  · intro volume hlen havg
    unfold calculate_volume_analysis
    rw [if_neg (by omega), havg]
    norm_num [round2, rndHalfEven]
  · intro account_balance entry_price stop_loss risk_percent heq
    unfold calculate_position_size
    rw [if_pos (by rw [heq]; simp)]
  · intro direction entry_price exit_price position_size h0
    unfold close_position_pnl
    rw [if_pos h0]

/-- Witness for the amended C5: twenty zero-volume candles, a stop equal to
entry, and a zero-size close. -/
theorem degenerate_inputs_guarded_witness :
    calculate_volume_analysis (List.replicate 20 0) = (0, 0, false) ∧
    calculate_position_size 10000 100 100 (3/2) = 0 ∧
    close_position_pnl .LONG 100 110 0 = .error "ZeroDivisionError" :=
  ⟨degenerate_inputs_guarded.1 (List.replicate 20 0) (by simp)
      (by norm_num [tail20_mean, List.replicate, List.sum]),
   degenerate_inputs_guarded.2.1 10000 100 100 (3/2) rfl,
   degenerate_inputs_guarded.2.2 .LONG 100 110 0 (by norm_num)⟩

/-- C7 (counterexample): with weights 1 and -1 over two intervals the total
weight is zero, yet the aggregation returns the unnormalized sums — the rsi
component is -10, not 0 (the claim holds only for nonnegative weights). -/
theorem weighted_indicators_mixed_sign_cex :
    total_applied_weight scoresW weightsW = 0 ∧
    (calculate_weighted_indicators scoresW weightsW).rsi = -10 ∧
    (calculate_weighted_indicators scoresW weightsW).rsi ≠ 0 := by
  refine ⟨?_, ?_, ?_⟩
  · norm_num [total_applied_weight, scoresW, weightsW,
      (show ¬("4h" = "1h") from by decide)]
  · norm_num [calculate_weighted_indicators, cwi_step, scoresW, weightsW,
      isW1, isW2, List.foldl, (show ¬("4h" = "1h") from by decide)]
  · norm_num [calculate_weighted_indicators, cwi_step, scoresW, weightsW,
      isW1, isW2, List.foldl, (show ¬("4h" = "1h") from by decide)]

/-- C7 (amended): for every interval-score map and every weight map that is
nonnegative on the present intervals, a zero total weight yields 0 for each
of rsi, macd, adx and supertrend; the normalization divides only when the
total weight is positive, so no division by zero ever happens. -/
theorem weighted_indicators_zero_total_weight
    (interval_scores : List (String × IntervalScore))
    (timeframe_weights : String → ℚ)
    (hnn : ∀ p ∈ interval_scores, 0 ≤ timeframe_weights p.1)
    (h0 : total_applied_weight interval_scores timeframe_weights = 0) :
    calculate_weighted_indicators interval_scores timeframe_weights =
      ⟨0, 0, 0, 0⟩ := by
  unfold total_applied_weight at h0
  have hall : ∀ p ∈ interval_scores, timeframe_weights p.1 = 0 := by
    intro p hp
    exact sum_zero_all_zero
      (interval_scores.map (fun q => timeframe_weights q.1))
      (by intro x hx
          obtain ⟨q, hq, rfl⟩ := List.mem_map.mp hx
          exact hnn q hq)
      h0 (timeframe_weights p.1) (List.mem_map.mpr ⟨p, hp, rfl⟩)
  unfold calculate_weighted_indicators
  rw [cwi_foldl_zero_weights timeframe_weights interval_scores _ hall]
  norm_num

/-- Witness for the amended C7: the all-zero weight map over one interval. -/
theorem weighted_indicators_zero_total_weight_witness :
    calculate_weighted_indicators [("1h", isA)] (fun _ => 0) =
      ⟨0, 0, 0, 0⟩ :=
  weighted_indicators_zero_total_weight [("1h", isA)] (fun _ => 0)
    (by intro p _; norm_num) (by norm_num [total_applied_weight])

/-- C8 (counterexample): the returned target is rounded to 2 decimals, so off
the cent grid the identity fails — entry 0.001, stop 0 gives target 0 and
|0 - 0.001| is 0.001, not 2*0.001. -/
theorem target_rounding_breaks_exactness_cex :
    calculate_target_price .LONG (1/1000) 0 = 0 ∧
    ¬(|calculate_target_price .LONG (1/1000) 0 - 1/1000| =
      2 * |(1:ℚ)/1000 - 0|) := by
  have h : calculate_target_price .LONG (1/1000) 0 = 0 := by
    simp only [calculate_target_price]
    rw [show |(1:ℚ)/1000 - 0| = 1/1000 by rw [abs_of_nonneg] <;> norm_num]
    norm_num [round2, rndHalfEven, Int.fract]
  refine ⟨h, ?_⟩
  rw [h]
  rw [show |(0:ℚ) - 1/1000| = 1/1000 by rw [abs_of_nonpos] <;> norm_num]
  rw [show |(1:ℚ)/1000 - 0| = 1/1000 by rw [abs_of_nonneg] <;> norm_num]
  norm_num

/-- C8 (amended): whenever entry and stop are whole multiples of 0.01 (prices
on the cent grid, where the final 2-decimal rounding is the identity) the
returned target satisfies `|target - entry| = 2*|entry - stop|` exactly, for
both directions. -/
theorem target_exact_on_cent_grid (direction : Dir) (k m : ℤ) :
    |calculate_target_price direction ((k : ℚ)/100) ((m : ℚ)/100) -
      (k : ℚ)/100| = 2 * |(k : ℚ)/100 - (m : ℚ)/100| := by
  have habs := cent_sub_abs k m
  cases direction with
  | LONG =>
    have harg : (k : ℚ)/100 + 2 * |(k : ℚ)/100 - (m : ℚ)/100| =
        ((k + 2 * |k - m| : ℤ) : ℚ)/100 := by
      rw [habs]
      push_cast
      ring
    simp only [calculate_target_price]
    rw [harg, round2_cent, habs]
    have h1 : ((k + 2 * |k - m| : ℤ) : ℚ)/100 - (k : ℚ)/100 =
        ((2 * |k - m| : ℤ) : ℚ)/100 := by
      push_cast
      ring
    rw [h1, abs_div, abs_of_nonneg (by norm_num : (0:ℚ) ≤ 100)]
    rw [show |((2 * |k - m| : ℤ) : ℚ)| = ((2 * |k - m| : ℤ) : ℚ) by
      rw [abs_of_nonneg]
      push_cast
      positivity]
    push_cast
    ring
  | SHORT =>
    have harg : (k : ℚ)/100 - 2 * |(k : ℚ)/100 - (m : ℚ)/100| =
        ((k - 2 * |k - m| : ℤ) : ℚ)/100 := by
      rw [habs]
      push_cast
      ring
    simp only [calculate_target_price]
    rw [harg, round2_cent, habs]
    have h1 : ((k - 2 * |k - m| : ℤ) : ℚ)/100 - (k : ℚ)/100 =
        -(((2 * |k - m| : ℤ) : ℚ)/100) := by
      push_cast
      ring
    rw [h1, abs_neg, abs_div, abs_of_nonneg (by norm_num : (0:ℚ) ≤ 100)]
    rw [show |((2 * |k - m| : ℤ) : ℚ)| = ((2 * |k - m| : ℤ) : ℚ) by
      rw [abs_of_nonneg]
      push_cast
      positivity]
    push_cast
    ring

/-- C6 (confirmed): the Master Score classification is a total,
non-overlapping partition with the boundaries exactly as specified —
`s>65` STRONG_BULLISH, `55≤s≤65` BULLISH, `45≤s<55` NEUTRAL, `35≤s<45`
BEARISH, `s<35` STRONG_BEARISH — so in particular 65 and 55 classify as
BULLISH, 45 as NEUTRAL and 35 as BEARISH. -/
theorem classification_partition :
    ∀ s : ℚ,
      ((classification s = "STRONG_BULLISH" ↔ 65 < s) ∧
       (classification s = "BULLISH" ↔ 55 ≤ s ∧ s ≤ 65) ∧
       (classification s = "NEUTRAL" ↔ 45 ≤ s ∧ s < 55) ∧
       (classification s = "BEARISH" ↔ 35 ≤ s ∧ s < 45) ∧
       (classification s = "STRONG_BEARISH" ↔ s < 35)) ∧
      classification 65 = "BULLISH" ∧ classification 55 = "BULLISH" ∧
      classification 45 = "NEUTRAL" ∧ classification 35 = "BEARISH" := by
  intro s
  refine ⟨?_, by norm_num [classification], by norm_num [classification],
    by norm_num [classification], by norm_num [classification]⟩
  unfold classification
  split_ifs with h1 h2 h3 h4 <;>
    refine ⟨?_, ?_, ?_, ?_, ?_⟩ <;>
    constructor <;>
    intro hh <;>
    first
      | linarith
      | exact absurd hh (by decide)
      | rfl
      | (exact ⟨by linarith, by linarith⟩)

/-- C4 (confirmed): exit evaluation equals first-match over the spec's five
rules in the spec's precedence order — target hit, stop-loss hit, MasterScore
reversal, Supertrend flip, then the time-based exit, which fires only after
more than 14,400 seconds with non-positive unrealized P&L. -/
theorem exit_conditions_first_match (position : Position)
    (current_price master_score weighted_supertrend entry_time now : ℚ) :
    check_exit_conditions position current_price master_score
      weighted_supertrend entry_time now =
    check_exit_spec position current_price master_score
      weighted_supertrend entry_time now := by
  cases hd : position.direction
  case LONG =>
    by_cases h1 : current_price ≥ position.target
    · simp [check_exit_conditions, check_exit_spec, exit_rules_spec, hd,
        List.find?, h1]
    · by_cases h2 : current_price ≤ position.stop_loss
      · simp [check_exit_conditions, check_exit_spec, exit_rules_spec, hd,
          List.find?, h1, h2]
      · by_cases h3 : master_score < 45
        · simp [check_exit_conditions, check_exit_spec, exit_rules_spec, hd,
            List.find?, h1, h2, h3]
        · by_cases h4 : weighted_supertrend < 40
          · simp [check_exit_conditions, check_exit_spec, exit_rules_spec, hd,
              List.find?, h1, h2, h3, h4]
          · by_cases h5 : now - entry_time > 14400 ∧
                calculate_pnl position current_price ≤ 0
            · simp [check_exit_conditions, check_exit_spec, exit_rules_spec,
                hd, List.find?, h1, h2, h3, h4, h5]
            · simp [check_exit_conditions, check_exit_spec, exit_rules_spec,
                hd, List.find?, h1, h2, h3, h4, h5]
  case SHORT =>
    by_cases h1 : current_price ≤ position.target
    · simp [check_exit_conditions, check_exit_spec, exit_rules_spec, hd,
        List.find?, h1]
    · by_cases h2 : current_price ≥ position.stop_loss
      · simp [check_exit_conditions, check_exit_spec, exit_rules_spec, hd,
          List.find?, h1, h2]
      · by_cases h3 : master_score > 55
        · simp [check_exit_conditions, check_exit_spec, exit_rules_spec, hd,
            List.find?, h1, h2, h3]
        · by_cases h4 : weighted_supertrend > 60
          · simp [check_exit_conditions, check_exit_spec, exit_rules_spec, hd,
              List.find?, h1, h2, h3, h4]
          · by_cases h5 : now - entry_time > 14400 ∧
                calculate_pnl position current_price ≤ 0
            · simp [check_exit_conditions, check_exit_spec, exit_rules_spec,
                hd, List.find?, h1, h2, h3, h4, h5]
            · simp [check_exit_conditions, check_exit_spec, exit_rules_spec,
                hd, List.find?, h1, h2, h3, h4, h5]

end PyReact
